import Mathlib

/-!
Verification of the tool-invocation loop and sandboxed filesystem operations
of the agent-engineering-bootcamp-week3 repository.

The development shallowly embeds the Python source:

* `src/mcp_client_windows_fix.py` — `WindowsMCPClient._safe_path`, the five
  `_*_direct` file operations, and `execute_mcp_tool`;
* `src/file_system_mcp_server.py` — `FileSystemMCPServer._safe_path` (same
  logic as the Windows client);
* `src/agent_tools.py` — `AgentTools.execute_tool` and the two local tools;
* `src/mcp_client.py` — `MCPClient.execute_mcp_tool` and
  `MCPToolsWrapper.cleanup`;
* `src/enhanced_function_calling_agent.py` —
  `EnhancedFunctionCallingAgent.chat_with_tools`.

Modelling conventions: Python exceptions become `Except PyErr`; the on-disk
filesystem becomes an association list from resolved absolute paths (component
lists) to entries; Python text-mode I/O is modelled with POSIX semantics
(writing stores the string unchanged, reading applies universal-newline
normalisation); `str.lower()` is modelled as ASCII lowering (the repository
only compares ASCII tool names and search terms); OS metadata that no claim
depends on (mtime, permission bits) is abstracted.
-/

namespace Week3

/-- Python exception values that the embedded code can raise. -/
inductive PyErr where
  | permissionError (msg : String)
  | keyError (key : String)
  | typeError (msg : String)
  | runtimeError (msg : String)
  | unicodeDecodeError
  | isADirectoryError (msg : String)
  | notADirectoryError (msg : String)
  deriving DecidableEq, Repr

/-- Python `str(e)` for the exceptions above (only the pieces the embedded
error messages interpolate). -/
def PyErr.str : PyErr → String
  | .permissionError m => m
  | .keyError k => "\x27" ++ k ++ "\x27"
  | .typeError m => m
  | .runtimeError m => m
  | .unicodeDecodeError => "invalid utf-8"
  | .isADirectoryError m => m
  | .notADirectoryError m => m

/-- Python `needle in hay` substring test on strings. -/
def strContainsB (hay needle : String) : Bool :=
  hay.data.tails.any (fun t => needle.data.isPrefixOf t)

/-- Python `s.endswith(suffix)`. -/
def strEndsWith (s suffix : String) : Bool :=
  suffix.data.isSuffixOf s.data

/-- Python `s.lower()`, restricted to ASCII case mapping. -/
def pyLower (s : String) : String :=
  ⟨s.data.map Char.toLower⟩

/-- Byte length of a character under UTF-8 encoding. -/
def charUtf8Len (c : Char) : Nat :=
  if c.toNat < 0x80 then 1
  else if c.toNat < 0x800 then 2
  else if c.toNat < 0x10000 then 3
  else 4

/-- Python `len(s.encode("utf-8"))`: the number of bytes the string occupies
when written to disk as UTF-8. -/
def pyUtf8Len (s : String) : Nat :=
  s.data.foldl (fun n c => n + charUtf8Len c) 0

/-- Universal-newline normalisation applied by Python text-mode reads with
the default `newline=None`: CRLF and lone CR both become LF. -/
def normChars : List Char → List Char
  | [] => []
  | c :: rest =>
      if c = '\r' then
        match rest with
        | '\n' :: rest2 => '\n' :: normChars rest2
        | rest2 => '\n' :: normChars rest2
      else c :: normChars rest

/-- Universal-newline normalisation on strings. -/
def normStr (s : String) : String :=
  ⟨normChars s.data⟩

/-- Python `len(f.readlines())`: the number of lines of a text, counting a
trailing fragment without a final newline as a line. -/
def pyLineCount (s : String) : Nat :=
  if s = "" then 0
  else (s.splitOn ("\n")).length - (if strEndsWith s ("\n") then 1 else 0)

/-! ## Paths and the `_safe_path` check

`FileSystemMCPServer._safe_path` (src/file_system_mcp_server.py:152-165) and
`WindowsMCPClient._safe_path` (src/mcp_client_windows_fix.py:164-180) share
the same logic: join a relative path onto the base directory, resolve it, and
require `resolved.relative_to(base)` to succeed, raising `PermissionError`
otherwise. A path is a list of components plus an absolute flag; `resolve`
is modelled as lexical normalisation of `.` and `..` (symlink state is not
modelled), and `relative_to` succeeds exactly when the base components are a
prefix of the resolved components. -/

/-- A path component. -/
abbrev Comp := String

/-- A Python `Path` value: absolute flag plus components (as produced by
`PurePath`, which already drops `.` and empty components; we keep the `.`
case in `resolvePath` for completeness). -/
structure PyPath where
  abs : Bool
  comps : List Comp
  deriving DecidableEq, Repr

/-- Render a path for interpolation into messages. -/
def pathRepr (p : PyPath) : String :=
  (if p.abs then ("/") else ("")) ++ String.intercalate ("/") p.comps

/-- `Path.resolve()` relative to an (absolute, already-normalised) base:
relative paths are joined onto the base, then `.` is dropped and `..` pops
one component (staying at the root when already there). -/
def resolvePath (base : List Comp) (p : PyPath) : List Comp :=
  let raw := if p.abs then p.comps else base ++ p.comps
  raw.foldl (fun acc c =>
    if c = "." then acc
    else if c = ".." then acc.dropLast
    else acc.concat c) []

/-- `_safe_path`: returns the resolved path when `resolved.relative_to(base)`
succeeds, and raises `PermissionError` otherwise
(src/mcp_client_windows_fix.py:164-180, src/file_system_mcp_server.py:152-165). -/
def safePath (base : List Comp) (p : PyPath) : Except PyErr (List Comp) :=
  let resolved := resolvePath base p
  if base.isPrefixOf resolved then .ok resolved
  else .error (.permissionError ("Access denied: Path outside base directory"))

/-! ## The filesystem model -/

/-- A filesystem entry: a directory, or a file with its decoded text content
(`none` when the bytes are not valid UTF-8 text) and its size in bytes. -/
inductive Entry where
  | file (text : Option String) (nBytes : Nat)
  | dir
  deriving DecidableEq, Repr

/-- The filesystem: an association list from resolved absolute paths to
entries (later bindings shadow earlier ones). -/
structure FS where
  entries : List (List Comp × Entry)
  deriving DecidableEq, Repr

/-- Association-list lookup over resolved paths. -/
def lookupEntry : List (List Comp × Entry) → List Comp → Option Entry
  | [], _ => none
  | kv :: rest, p => if kv.1 = p then some kv.2 else lookupEntry rest p

/-- Look up the entry at a resolved path. -/
def FS.lookup (fs : FS) (p : List Comp) : Option Entry :=
  lookupEntry fs.entries p

/-- Create or overwrite the entry at a resolved path. -/
def FS.set (fs : FS) (p : List Comp) (e : Entry) : FS :=
  ⟨(p, e) :: fs.entries⟩

/-- The proper (non-empty) ancestors of a path: every strict non-empty initial
segment of its component list. -/
def properAncestors (p : List Comp) : List (List Comp) :=
  (List.range p.length).filterMap (fun n =>
    if n = 0 then none else some (p.take n))

/-- `os.makedirs(dirPath, exist_ok=True)`: create every missing ancestor of
`dirPath` and `dirPath` itself as directories; raise if any of them already
exists as a file. -/
def mkdirs (fs : FS) (dirPath : List Comp) : Except PyErr FS :=
  (properAncestors dirPath ++ [dirPath]).foldl
    (fun acc d =>
      match acc with
      | .error e => .error e
      | .ok fsAcc =>
          match fsAcc.lookup d with
          | some Entry.dir => .ok fsAcc
          | some (Entry.file _ _) =>
              .error (.notADirectoryError ("Not a directory: " ++ String.intercalate ("/") d))
          | none => .ok (fsAcc.set d Entry.dir))
    (.ok fs)

/-- The last component of a resolved path (the file name). -/
def lastComp (p : List Comp) : String :=
  p.getLast? |>.getD ("")

/-- Render the part of `filePath` below `root` (Python
`os.path.relpath(file_path, safe_path)` for a descendant). -/
def relPathStr (root filePath : List Comp) : String :=
  String.intercalate ("/") (filePath.drop root.length)

/-- All files strictly below `root` in the filesystem, with their decoded
text (the enumeration order of `os.walk`, which no claim depends on, is the
order of the association list). -/
def filesUnder (fs : FS) (root : List Comp) : List (List Comp × Option String) :=
  fs.entries.filterMap (fun kv =>
    match kv.2 with
    | Entry.file text _ =>
        if root.isPrefixOf kv.1 ∧ kv.1 ≠ root then some (kv.1, text) else none
    | Entry.dir => none)

/-! ## Tool results

The Windows client returns plain dictionaries. We model them as a record
with optional fields for the keys that only some branches include. -/

/-- A result dictionary as returned by the `_*_direct` operations and
`execute_mcp_tool`: the `success` and `result` keys are always present;
`error` and `tool_name` only on some branches. -/
structure PyResult where
  success : Bool
  result : String
  error : Option String := none
  toolNameKey : Option String := none
  deriving DecidableEq, Repr

/-- The failure dictionary shape `{success: False, error: msg, result: ""}`. -/
def mkErr (msg : String) : PyResult :=
  { success := false, result := "", error := some msg }

/-- The result-shape invariant of the MCP tool-execution entry points:
whenever `success` is false the dictionary carries a non-empty `error`
string and an empty `result` string. -/
def resultShapeOk (r : PyResult) : Prop :=
  r.success = false → (∃ e, r.error = some e ∧ e ≠ "") ∧ r.result = ""

/-! ## The five direct file operations
(src/mcp_client_windows_fix.py:182-391; the `FileSystemMCPServer` versions at
src/file_system_mcp_server.py:167-354 follow the identical control flow and
differ only in wrapping the text into MCP content objects). -/

/-- `WindowsMCPClient._read_file_direct` (src/mcp_client_windows_fix.py:182-221). -/
def readFileDirect (fs : FS) (base : List Comp) (filePath : PyPath) : PyResult :=
  match safePath base filePath with
  | .error e => mkErr ("Error reading file: " ++ e.str)
  | .ok sp =>
      match fs.lookup sp with
      | none => mkErr ("File not found: " ++ pathRepr filePath)
      | some Entry.dir => mkErr ("Path is not a file: " ++ pathRepr filePath)
      | some (Entry.file none _) =>
          mkErr ("Unable to read file (binary or encoding issue): " ++ pathRepr filePath)
      | some (Entry.file (some stored) _) =>
          { success := true
            result := "File: " ++ pathRepr filePath ++ "\n---\n" ++ normStr stored
            toolNameKey := some ("mcp_read_file") }

/-- `WindowsMCPClient._write_file_direct` (src/mcp_client_windows_fix.py:223-245).
Returns the result dictionary together with the filesystem after the call;
POSIX text-mode writing stores the string unchanged and its UTF-8 byte count. -/
def writeFileDirect (fs : FS) (base : List Comp) (filePath : PyPath) (content : String) :
    PyResult × FS :=
  match safePath base filePath with
  | .error e => (mkErr ("Error writing file: " ++ e.str), fs)
  | .ok sp =>
      match mkdirs fs sp.dropLast with
      | .error e => (mkErr ("Error writing file: " ++ e.str), fs)
      | .ok fs1 =>
          match fs1.lookup sp with
          | some Entry.dir =>
              (mkErr ("Error writing file: " ++ ("Is a directory: " ++ pathRepr filePath)), fs1)
          | _ =>
              ({ success := true
                 result := "Successfully wrote " ++ toString content.length
                   ++ " characters to: " ++ pathRepr filePath
                 toolNameKey := some ("mcp_write_file") },
               fs1.set sp (Entry.file (some content) (pyUtf8Len content)))

/-- One insertion step of an insertion sort on name-keyed pairs. -/
def insPair (x : String × Entry) : List (String × Entry) → List (String × Entry)
  | [] => [x]
  | y :: ys => if x.1 ≤ y.1 then x :: y :: ys else y :: insPair x ys

/-- Insertion sort by name, modelling Python `sorted(os.listdir(...))`. -/
def sortPairs : List (String × Entry) → List (String × Entry)
  | [] => []
  | p :: rest => insPair p (sortPairs rest)

/-- The names of the immediate children of a directory. -/
def childNames (fs : FS) (dirPath : List Comp) : List (String × Entry) :=
  fs.entries.filterMap (fun kv =>
    if kv.1.length = dirPath.length + 1 ∧ dirPath.isPrefixOf kv.1 then
      some (lastComp kv.1, kv.2)
    else none)

/-- `WindowsMCPClient._list_directory_direct` (src/mcp_client_windows_fix.py:247-288). -/
def listDirectoryDirect (fs : FS) (base : List Comp) (dirPath : PyPath) : PyResult :=
  match safePath base dirPath with
  | .error e => mkErr ("Error listing directory: " ++ e.str)
  | .ok sp =>
      match fs.lookup sp with
      | none => mkErr ("Directory not found: " ++ pathRepr dirPath)
      | some (Entry.file _ _) => mkErr ("Path is not a directory: " ++ pathRepr dirPath)
      | some Entry.dir =>
          let kids := sortPairs (childNames fs sp)
          let items := kids.map (fun kid =>
            match kid.2 with
            | Entry.dir => "📁 " ++ kid.1
            | Entry.file _ n => "📄 " ++ kid.1 ++ " (" ++ toString n ++ " bytes)")
          let content := "Directory: " ++ pathRepr dirPath ++ "\n---\n"
            ++ String.intercalate ("\n") items
            ++ (if items.isEmpty then ("(empty directory)") else (""))
          { success := true, result := content, toolNameKey := some ("mcp_list_directory") }

/-- The block of match lines one file contributes to the search output
(src/mcp_client_windows_fix.py:305-329): when the lowered content contains
the lowered term, the relative-path header, the first three formatted
matching lines, a count of further matches when there are more than three,
and a separating blank entry. -/
def fileBlock (term relPath content : String) : List String :=
  if strContainsB (pyLower content) (pyLower term) then
    let matchingLines := (content.splitOn ("\n")).enum.filterMap (fun p =>
      if strContainsB (pyLower p.2) (pyLower term) then
        some ("  Line " ++ toString (p.1 + 1) ++ ": " ++ p.2.trim)
      else none)
    ["📄 " ++ relPath ++ ":"] ++ matchingLines.take 3
      ++ (if 3 < matchingLines.length then
            ["  ... and " ++ toString (matchingLines.length - 3) ++ " more matches"]
          else [])
      ++ [""]
  else []

/-- The contribution of one walked file: nothing when the file fails the
extension filter (`continue` at src/mcp_client_windows_fix.py:308) or its
bytes do not decode as text (the `UnicodeDecodeError` handler at line 331),
otherwise its `fileBlock` over the text-mode-decoded content. -/
def perFileLines (term ext : String) (root : List Comp)
    (f : List Comp × Option String) : List String :=
  if ext ≠ "" ∧ ¬ strEndsWith (lastComp f.1) ext then []
  else
    match f.2 with
    | none => []
    | some stored => fileBlock term (relPathStr root f.1) (normStr stored)

/-- The flat `matches` list accumulated by the walk over all files below the
search root. -/
def searchMatchList (fs : FS) (root : List Comp) (term ext : String) : List String :=
  ((filesUnder fs root).map (perFileLines term ext root)).flatten

/-- `WindowsMCPClient._search_files_direct` (src/mcp_client_windows_fix.py:290-350). -/
def searchFilesDirect (fs : FS) (base : List Comp) (term : String) (dirPath : PyPath)
    (ext : String) : PyResult :=
  match safePath base dirPath with
  | .error e => mkErr ("Error searching files: " ++ e.str)
  | .ok sp =>
      match fs.lookup sp with
      | some Entry.dir =>
          let matchList := searchMatchList fs sp term ext
          let result :=
            if matchList.isEmpty then
              "No matches found for \x27" ++ term ++ "\x27 in " ++ pathRepr dirPath
            else
              "Search results for \x27" ++ term ++ "\x27 in " ++ pathRepr dirPath
                ++ ":\n---\n" ++ String.intercalate ("\n") matchList
          { success := true, result := result, toolNameKey := some ("mcp_search_files") }
      | _ => mkErr ("Invalid directory: " ++ pathRepr dirPath)

/-- `WindowsMCPClient._file_info_direct` (src/mcp_client_windows_fix.py:352-391).
The mtime rendered by the source is OS metadata outside the model and is
rendered as 0; directory sizes likewise. -/
def fileInfoDirect (fs : FS) (base : List Comp) (p : PyPath) : PyResult :=
  match safePath base p with
  | .error e => mkErr ("Error getting file info: " ++ e.str)
  | .ok sp =>
      match fs.lookup sp with
      | none => mkErr ("Path not found: " ++ pathRepr p)
      | some ent =>
          let size := match ent with
            | Entry.file _ n => n
            | Entry.dir => 0
          let baseInfo :=
            ["Path: " ++ pathRepr p,
             "Type: " ++ (match ent with | Entry.dir => "Directory" | _ => "File"),
             "Size: " ++ toString size ++ " bytes",
             "Last modified: 0"]
          let info := baseInfo ++
            (match ent with
             | Entry.file (some stored) _ =>
                 ["Lines: " ++ toString (pyLineCount (normStr stored))]
             | Entry.file none _ => ["Type: Binary file"]
             | Entry.dir => [])
          { success := true
            result := "File Information:\n---\n" ++ String.intercalate ("\n") info
            toolNameKey := some ("mcp_file_info") }

/-! ## `WindowsMCPClient.execute_mcp_tool`
(src/mcp_client_windows_fix.py:130-162): strips the `mcp_` prefix (Python
`replace` removes every occurrence), branches on the operation name, and
wraps the whole body in a catch-all that converts any exception into a
failure dictionary. Missing required arguments surface as `KeyError` from
the dictionary indexing and are caught by that handler. -/

/-- Argument mappings passed to tool dispatch (string-valued, as produced by
parsing the JSON arguments). -/
abbrev ArgMap := List (String × String)

/-- Python `arguments[key]`: raises `KeyError` when absent. -/
def argGet (args : ArgMap) (key : String) : Except PyErr String :=
  match args.lookup key with
  | some v => .ok v
  | none => .error (.keyError key)

/-- Python `arguments.get(key, dflt)`. -/
def argGetD (args : ArgMap) (key dflt : String) : String :=
  (args.lookup key).getD dflt

/-- Replace every non-overlapping occurrence of a nonempty pattern, scanning
left to right (fuel-indexed for structural recursion; the fuel is the input
length, which bounds the number of scan steps). -/
def replaceAux (pat repl : List Char) : Nat → List Char → List Char
  | _, [] => []
  | 0, l => l
  | fuel + 1, c :: rest =>
      if pat.isPrefixOf (c :: rest) then
        repl ++ replaceAux pat repl fuel ((c :: rest).drop pat.length)
      else c :: replaceAux pat repl fuel rest

/-- Python `s.replace(pat, repl)` for a nonempty pattern: deletes or replaces
every occurrence, not only a leading one. -/
def pyReplace (s pat repl : String) : String :=
  ⟨replaceAux pat.data repl.data s.data.length s.data⟩

/-- Parse an argument value as a path (absolute when it starts with `/`). -/
def parsePath (s : String) : PyPath :=
  if strContainsB s ("/") ∨ s = ".." ∨ s = "." then
    let comps := (s.splitOn ("/")).filter (fun c => c ≠ "" ∧ c ≠ ".")
    { abs := s.data.head? = some '/', comps := comps }
  else { abs := false, comps := [s] }

/-- The try-block body of `execute_mcp_tool`: dispatch on the operation name
derived by deleting `mcp_` from the tool name; unknown operations return the
fail-closed dictionary; argument indexing may raise `KeyError`. -/
def windowsExecuteBody (fs : FS) (base : List Comp) (toolName : String)
    (args : ArgMap) : Except PyErr (PyResult × FS) :=
  let operation := pyReplace toolName ("mcp_") ("")
  if operation = "read_file" then do
    let fp ← argGet args ("file_path")
    .ok (readFileDirect fs base (parsePath fp), fs)
  else if operation = "write_file" then do
    let fp ← argGet args ("file_path")
    let content ← argGet args ("content")
    .ok (writeFileDirect fs base (parsePath fp) content)
  else if operation = "list_directory" then
    .ok (listDirectoryDirect fs base (parsePath (argGetD args ("directory_path") ("."))), fs)
  else if operation = "search_files" then do
    let term ← argGet args ("search_term")
    let dirPath := argGetD args ("directory_path") (".")
    let ext := argGetD args ("file_extension") ("")
    .ok (searchFilesDirect fs base term (parsePath dirPath) ext, fs)
  else if operation = "file_info" then do
    let p ← argGet args ("path")
    .ok (fileInfoDirect fs base (parsePath p), fs)
  else
    .ok (mkErr ("Unknown MCP operation: " ++ operation), fs)

/-- `WindowsMCPClient.execute_mcp_tool`: the body under the catch-all
`except Exception` that converts a raised exception into a failure
dictionary, leaving the filesystem as it was. -/
def windowsExecuteMcpTool (fs : FS) (base : List Comp) (toolName : String)
    (args : ArgMap) : PyResult × FS :=
  match windowsExecuteBody fs base toolName args with
  | .ok r => r
  | .error e => (mkErr ("Error executing " ++ toolName ++ ": " ++ e.str), fs)

/-! ## `MCPClient.execute_mcp_tool` (src/mcp_client.py:82-126)

The asyncio client checks registration and connection, then forwards the
call to the remote server over the wire; the remote round trip is an oracle
(an `Except`-valued input), and its content fragments are concatenated. -/

/-- The remote call outcome: a list of content fragments, `some text` for
fragments carrying a `text` attribute. -/
structure RemoteCallResult where
  content : List (Option String)
  deriving DecidableEq, Repr

/-- State of an `MCPClient`: the registered prefixed tool names and whether
the filesystem server is recorded as connected. -/
structure MCPClientState where
  availableTools : List String
  fsServerConnected : Bool
  deriving DecidableEq, Repr

/-- Concatenate the text fragments of a remote result, each followed by a
newline, then strip (src/mcp_client.py:108-117). -/
def gatherText (r : RemoteCallResult) : String :=
  (r.content.foldl (fun acc frag =>
    match frag with
    | some t => acc ++ t ++ "\n"
    | none => acc) ("")).trim

/-- `MCPClient.execute_mcp_tool`: fails closed on unknown tools and missing
connections, converts any exception from the remote round trip into a
failure dictionary, and wraps a successful round trip into a success
dictionary. -/
def mcpClientExecuteTool (st : MCPClientState) (toolName : String)
    (remote : Except PyErr RemoteCallResult) : PyResult :=
  if ¬ st.availableTools.contains toolName then
    mkErr ("Unknown MCP tool: " ++ toolName)
  else if ¬ st.fsServerConnected then
    mkErr ("MCP server filesystem not connected")
  else
    match remote with
    | .error e => mkErr ("Error executing MCP tool " ++ toolName ++ ": " ++ e.str)
    | .ok r =>
        { success := true, result := gatherText r, toolNameKey := some toolName }

/-! ## `AgentTools` (src/agent_tools.py)

The local registry dispatches by name with no surrounding try/except
(`execute_tool`, lines 381-401): the two known handlers are invoked with
`**kwargs`, so Python raises `TypeError` at the call site when the argument
mapping does not bind to the handler signature; each handler body catches its
own exceptions. The external backends (the vector-search provider and the
web/requests stack) are oracles. -/

/-- A result dictionary of the local tools: `{success, error?, results,
query?, total_found?}` with payload items abstracted as strings. -/
structure AgentDict where
  success : Bool
  error : Option String := none
  results : List String := []
  query : Option String := none
  totalFound : Option Nat := none
  deriving DecidableEq, Repr

/-- Python keyword-argument binding for a call `f(**kwargs)` against a
signature with the given required and optional parameter names: raises
`TypeError` on an unexpected keyword or a missing required one. -/
def bindKwargs (fnName : String) (required optional : List String)
    (kwargs : ArgMap) : Except PyErr Unit :=
  let params := required ++ optional
  match kwargs.find? (fun kv => ¬ params.contains kv.1) with
  | some kv =>
      .error (.typeError (fnName ++ "() got an unexpected keyword argument \x27"
        ++ kv.1 ++ "\x27"))
  | none =>
      if required.all (fun r => (kwargs.map Prod.fst).contains r) then .ok ()
      else .error (.typeError (fnName ++ "() missing required arguments"))

/-- `AgentTools.search_documents` (src/agent_tools.py:88-130): fails closed
when the RAG source is unavailable; otherwise the remote retrieval (oracle
`rag`, yielding formatted result payloads) is wrapped in try/except. -/
def agentSearchDocuments (hasRag : Bool) (query : String)
    (rag : Except PyErr (List String)) : AgentDict :=
  if ¬ hasRag then
    { success := false, error := some ("RAG source not available") }
  else
    match rag with
    | .error e =>
        { success := false, error := some ("Error searching documents: " ++ e.str) }
    | .ok docs =>
        { success := true, query := some query, results := docs,
          totalFound := some docs.length }

/-- `AgentTools.search_web` (src/agent_tools.py:132-258): the whole body is
one try-block whose outcome (weather/news heuristics, DuckDuckGo call,
fallback suggestions — all out-of-scope externals) is the oracle `web`; the
except-clause converts any exception into a failure dictionary. -/
def agentSearchWeb (web : Except PyErr AgentDict) : AgentDict :=
  match web with
  | .ok d => d
  | .error e =>
      { success := false, error := some ("Error searching web: " ++ e.str) }

/-- `AgentTools.execute_tool` (src/agent_tools.py:381-401): name dispatch with
`**kwargs` calls — keyword binding happens first and may raise `TypeError`;
unknown names return the fail-closed dictionary. -/
def agentExecuteTool (hasRag : Bool) (toolName : String) (kwargs : ArgMap)
    (rag : Except PyErr (List String)) (web : Except PyErr AgentDict) :
    Except PyErr AgentDict :=
  if toolName = "search_documents" then do
    let _ ← bindKwargs ("search_documents") (["query"]) (["num_results"]) kwargs
    .ok (agentSearchDocuments hasRag (argGetD kwargs ("query") ("")) rag)
  else if toolName = "search_web" then do
    let _ ← bindKwargs ("search_web") (["query"]) (["max_results"]) kwargs
    .ok (agentSearchWeb web)
  else
    .ok { success := false, error := some ("Unknown tool: " ++ toolName) }

/-! ## Tool catalogs and system prompts
(src/enhanced_function_calling_agent.py:76-137, src/agent_tools.py:33-86,
src/mcp_client_windows_fix.py:26-128 and 405-410). -/

/-- The five prefixed filesystem tool names offered by the MCP integration. -/
def mcpToolNames : List String :=
  ["mcp_read_file", "mcp_write_file", "mcp_list_directory",
   "mcp_search_files", "mcp_file_info"]

/-- Names returned by `AgentTools.get_available_tools`: `search_documents` is
registered only when the RAG source constructed successfully. -/
def agentToolNames (hasRag : Bool) : List String :=
  (if hasRag then ["search_documents"] else []) ++ ["search_web"]

/-- Names returned by `EnhancedFunctionCallingAgent.get_available_tools`:
the MCP-integrated catalog (regular plus MCP tools) when MCP is enabled,
otherwise the regular tools only. -/
def availableToolNames (mcpEnabled hasRag : Bool) : List String :=
  if mcpEnabled then agentToolNames hasRag ++ mcpToolNames
  else agentToolNames hasRag

/-- The hardcoded MCP-mode system prompt
(src/enhanced_function_calling_agent.py:109-119). -/
def systemMessageMcp : String :=
  "You are a helpful AI assistant with access to multiple tools:\n\n"
  ++ "1. search_documents: Search through uploaded documents (RAG)\n"
  ++ "2. search_web: Search the internet for current information\n"
  ++ "3. mcp_read_file: Read the contents of files\n"
  ++ "4. mcp_write_file: Write content to files (creates or overwrites)\n"
  ++ "5. mcp_list_directory: List contents of directories\n"
  ++ "6. mcp_search_files: Search for text within files in directories\n"
  ++ "7. mcp_file_info: Get information about files or directories\n\n"
  ++ "Use tools when appropriate to provide better answers. "
  ++ "You can read, write, and manage files to help with various tasks."

/-- The hardcoded basic-mode system prompt
(src/enhanced_function_calling_agent.py:121-126). -/
def systemMessageBasic : String :=
  "You are a helpful AI assistant with access to tools:\n\n"
  ++ "1. search_documents: Search through uploaded documents\n"
  ++ "2. search_web: Search the internet for current information\n\n"
  ++ "Use tools when appropriate to provide better answers."

/-- The system prompt selected for a run. -/
def systemMessage (mcpEnabled : Bool) : String :=
  if mcpEnabled then systemMessageMcp else systemMessageBasic

/-- The tool names the system prompt enumerates (the numbered items of the
hardcoded prompt texts). -/
def promptToolNames (mcpEnabled : Bool) : List String :=
  if mcpEnabled then
    ["search_documents", "search_web"] ++ mcpToolNames
  else
    ["search_documents", "search_web"]

/-! ## The invocation loop `chat_with_tools`
(src/enhanced_function_calling_agent.py:94-200)

The completion service is a black box: the first completion outcome and the
second completion outcome (as a function of the extended conversation) are
inputs, as is the dispatch function `exec` (which may raise — the agent
forwards to `execute_tool`). The entire body sits in a try/except whose
handler returns the fixed apology string. -/

/-- A conversation message. -/
structure Message where
  role : String
  content : String
  name : Option String := none
  toolCallId : Option String := none
  deriving DecidableEq, Repr

/-- A tool-call request carried by a completion response: the correlation id,
the function name, and the outcome of `json.loads` on the arguments string. -/
structure ToolCall where
  tcId : String
  fname : String
  argsParse : Except PyErr ArgMap

/-- A first-completion response: content plus tool-call requests
(`None` and the empty list are both falsy in the source test, so both are
the empty list here). -/
structure ChatResponse where
  content : String
  toolCalls : List ToolCall

/-- Serialisation of a tool result for the tool-role message
(`json.dumps(tool_result)`). -/
def dumpResult (r : PyResult) : String :=
  "\x7bsuccess: " ++ (if r.success then ("true") else ("false"))
    ++ ", result: " ++ r.result
    ++ (match r.error with | some e => ", error: " ++ e | none => "")
    ++ "\x7d"

/-- The dispatch loop over tool calls (src/enhanced_function_calling_agent.py:157-176):
parse each argument string, execute the tool, and append a tool-role message
carrying the serialised result and the correlation id; any exception aborts
the remaining calls and propagates to the loop boundary. Returns the
extended conversation and the dispatched tool names in order. -/
def runCalls (exec : String → ArgMap → Except PyErr PyResult) :
    List Message → List ToolCall → Except PyErr (List Message × List String)
  | msgs, [] => .ok (msgs, [])
  | msgs, tc :: rest => do
      let args ← tc.argsParse
      let r ← exec tc.fname args
      let toolMsg : Message :=
        { role := "tool", content := dumpResult r,
          name := some tc.fname, toolCallId := some tc.tcId }
      let (finalMsgs, names) ← runCalls exec (msgs ++ [toolMsg]) rest
      .ok (finalMsgs, tc.fname :: names)

/-- The try-block body of `chat_with_tools`: returns the final answer, the
dispatched tool names in order, and whether the second completion call was
issued; any exception propagates. -/
def chatBody (mcpEnabled : Bool) (userMsg : String)
    (first : Except PyErr ChatResponse)
    (exec : String → ArgMap → Except PyErr PyResult)
    (second : List Message → Except PyErr String) :
    Except PyErr (String × List String × Bool) := do
  let msgs0 : List Message :=
    [{ role := "system", content := systemMessage mcpEnabled },
     { role := "user", content := userMsg }]
  let resp ← first
  match resp.toolCalls with
  | [] => .ok (resp.content, [], false)
  | _ :: _ => do
      let assistantMsg : Message := { role := "assistant", content := resp.content }
      let (msgs1, names) ← runCalls exec (msgs0 ++ [assistantMsg]) resp.toolCalls
      let answer ← second msgs1
      .ok (answer, names, true)

/-- The outcome of one run of the invocation loop. -/
structure RunOutcome where
  answer : String
  dispatched : List String
  secondCalled : Bool
  errored : Bool
  deriving Repr

/-- The fixed apology returned by the exception handler of
`chat_with_tools` (src/enhanced_function_calling_agent.py:197-200). -/
def apologyAnswer : String := "Sorry, I encountered an error."

/-- `EnhancedFunctionCallingAgent.chat_with_tools`: the try-block body with
the catch-all boundary that converts any exception into the apology answer. -/
def chatWithTools (mcpEnabled : Bool) (userMsg : String)
    (first : Except PyErr ChatResponse)
    (exec : String → ArgMap → Except PyErr PyResult)
    (second : List Message → Except PyErr String) : RunOutcome :=
  match chatBody mcpEnabled userMsg first exec second with
  | .ok (ans, names, sc) =>
      { answer := ans, dispatched := names, secondCalled := sc, errored := false }
  | .error _ =>
      { answer := apologyAnswer, dispatched := [], secondCalled := false, errored := true }

/-! ## Wrapper cleanup (src/mcp_client.py:237-242 and
src/mcp_client_windows_fix.py:440-442) -/

/-- State of an `MCPToolsWrapper`: whether `mcp_tools` has been set (with its
`mcp_connected` flag) and whether `_loop` has been set (with its closed
flag). A fresh wrapper has neither. -/
structure WrapState where
  mcpTools : Option Bool
  loop : Option Bool
  deriving DecidableEq, Repr

/-- A freshly constructed wrapper on which `initialize` was never called. -/
def freshWrapper : WrapState := { mcpTools := none, loop := none }

/-- The wrapper state after a successful `initialize`: `mcp_tools` set with
`mcp_connected = True` and an open event loop. -/
def connectedWrapper : WrapState := { mcpTools := some true, loop := some false }

/-- `MCPToolsWrapper.cleanup` (src/mcp_client.py:237-242): when both
`mcp_tools` and `_loop` are set, `run_until_complete` runs the cleanup
coroutine — raising `RuntimeError` if the loop is already closed — and then
`_loop.close()` closes the loop; neither field is ever reset to `None`. -/
def wrapperCleanup (w : WrapState) : Except PyErr WrapState := do
  let w1 ←
    match w.mcpTools, w.loop with
    | some _, some closed =>
        if closed then .error (.runtimeError ("Event loop is closed"))
        else .ok w
    | _, _ => .ok w
  match w1.loop with
  | some _ => .ok { w1 with loop := some true }
  | none => .ok w1

/-- `WindowsMCPToolsWrapper.cleanup` (src/mcp_client_windows_fix.py:440-442):
the body is `pass`. -/
def windowsWrapperCleanup (w : WrapState) : WrapState := w

/-! ## Spec-side model of the search operation

Modelled from the spec sentence for `search`: a case-insensitive substring
match over each decodable file (filtered by suffix when a filter is given);
each matching file records its root-relative path, at most the first three
matching lines with their 1-based line numbers, and the count of matching
lines beyond three; undecodable files are skipped. Used to check the search
claim as a refinement of `searchFilesDirect`. -/

/-- The numbered, stripped matching lines of a decoded file content:
1-based line number and `line.strip()` for each line whose lowering contains
the lowered term. -/
def matchingPairs (term content : String) : List (Nat × String) :=
  (content.splitOn ("\n")).enum.filterMap (fun p =>
    if strContainsB (pyLower p.2) (pyLower term) then
      some (p.1 + 1, p.2.trim)
    else none)

/-- One recorded match of the spec-side search. -/
structure SearchHit where
  relPath : String
  shown : List (Nat × String)
  extra : Nat
  deriving DecidableEq, Repr

/-- The spec-side verdict for one file: `none` when the file fails the
suffix filter, cannot be decoded, or does not match; otherwise the recorded
hit with at most the first three matching lines and the overflow count. -/
def specFileHit (term ext : String) (root : List Comp)
    (f : List Comp × Option String) : Option SearchHit :=
  if ext ≠ "" ∧ ¬ strEndsWith (lastComp f.1) ext then none
  else
    match f.2 with
    | none => none
    | some stored =>
        let content := normStr stored
        if strContainsB (pyLower content) (pyLower term) then
          let pairs := matchingPairs term content
          some { relPath := relPathStr root f.1
                 shown := pairs.take 3
                 extra := pairs.length - 3 }
        else none

/-- The spec-side search: the recorded hits of all files below the root. -/
def specSearchHits (fs : FS) (root : List Comp) (term ext : String) : List SearchHit :=
  (filesUnder fs root).filterMap (specFileHit term ext root)

/-- Rendering of one spec-side hit into the flat output lines of the source. -/
def renderHit (h : SearchHit) : List String :=
  ["📄 " ++ h.relPath ++ ":"]
    ++ h.shown.map (fun q => "  Line " ++ toString q.1 ++ ": " ++ q.2)
    ++ (if h.extra ≠ 0 then ["  ... and " ++ toString h.extra ++ " more matches"] else [])
    ++ [""]

/-! ## Helper lemmas -/

/-- Normalisation is the identity on text without carriage returns. -/
theorem normChars_eq_self (l : List Char) (h : '\r' ∉ l) : normChars l = l := by
  induction l with
  | nil => rfl
  | cons c rest ih =>
      have hc : c ≠ '\r' := fun e => h (e ▸ List.mem_cons_self c rest)
      have hrest : '\r' ∉ rest := fun hm => h (List.mem_cons_of_mem c hm)
      rw [normChars.eq_def]
      simp [hc, ih hrest]

/-- Normalisation is the identity on strings without carriage returns. -/
theorem normStr_eq_self (s : String) (h : '\r' ∉ s.data) : normStr s = s := by
  cases s with
  | mk l => simp [normStr, normChars_eq_self l h]

/-- A string append with a nonempty left part is nonempty. -/
theorem strAppend_ne_empty (s t : String) (h : s ≠ "") : s ++ t ≠ "" := by
  cases s with
  | mk ls =>
      cases t with
      | mk lt =>
          intro hc
          have hdata : ls ++ lt = [] := congrArg String.data hc
          have h1 : ls = [] := (List.append_eq_nil.mp hdata).1
          exact h (by simp [h1])

/-- Reading back a freshly written entry. -/
theorem lookup_set_self (fs : FS) (p : List Comp) (e : Entry) :
    (fs.set p e).lookup p = some e := by
  simp [FS.set, FS.lookup, lookupEntry]

/-- A successful write: when the path validates, the intermediate
directories are created without conflict, and the target is not an existing
directory, the write stores the content (with its UTF-8 byte size) and
reports the character count of the content. -/
theorem writeFileDirect_ok (fs fs1 : FS) (base sp : List Comp) (p : PyPath) (c : String)
    (hsafe : safePath base p = .ok sp)
    (hmk : mkdirs fs sp.dropLast = .ok fs1)
    (hnd : fs1.lookup sp ≠ some Entry.dir) :
    writeFileDirect fs base p c =
      ({ success := true
         result := "Successfully wrote " ++ toString c.length ++ " characters to: " ++ pathRepr p
         toolNameKey := some ("mcp_write_file") },
       fs1.set sp (Entry.file (some c) (pyUtf8Len c))) := by
  unfold writeFileDirect
  rw [hsafe]
  simp only [hmk]

/-- Folding UTF-8 byte lengths over ASCII characters counts one byte each. -/
theorem foldl_utf8_ascii (l : List Char) (n : Nat) (h : ∀ ch ∈ l, ch.toNat < 128) :
    l.foldl (fun acc c => acc + charUtf8Len c) n = n + l.length := by
  induction l generalizing n with
  | nil => simp
  | cons c rest ih =>
      have hc : charUtf8Len c = 1 := by
        simp [charUtf8Len, h c (List.mem_cons_self c rest)]
      simp only [List.foldl_cons, hc, List.length_cons]
      rw [ih (n + 1) (fun ch hm => h ch (List.mem_cons_of_mem c hm))]
      omega

/-- Bind of a successful `Except` computation. -/
theorem exceptBind_ok {ε α β : Type} (a : α) (f : α → Except ε β) :
    (Except.ok a >>= f : Except ε β) = f a := rfl

/-- Bind of a failed `Except` computation. -/
theorem exceptBind_error {ε α β : Type} (e : ε) (f : α → Except ε β) :
    (Except.error e >>= f : Except ε β) = .error e := rfl

/-- A failure dictionary with a left-nonempty concatenated message satisfies
the result-shape invariant. -/
theorem mkErr_shape (s t : String) (h : s ≠ "") : resultShapeOk (mkErr (s ++ t)) :=
  fun _ => ⟨⟨s ++ t, rfl, strAppend_ne_empty s t h⟩, rfl⟩

/-- A failure dictionary with a nonempty literal message satisfies the
result-shape invariant. -/
theorem mkErr_shape_lit (s : String) (h : s ≠ "") : resultShapeOk (mkErr s) :=
  fun _ => ⟨⟨s, rfl, h⟩, rfl⟩

/-- A success dictionary satisfies the result-shape invariant vacuously. -/
theorem success_shape (r : PyResult) (h : r.success = true) : resultShapeOk r :=
  fun hf => absurd (h.symm.trans hf) (by decide)

/-- Every result of the direct read operation satisfies the shape invariant. -/
theorem readFileDirect_shape (fs : FS) (base : List Comp) (p : PyPath) :
    resultShapeOk (readFileDirect fs base p) := by
  unfold readFileDirect
  cases hsp : safePath base p with
  | error e => exact mkErr_shape _ _ (by decide)
  | ok sp =>
      dsimp only
      cases hl : fs.lookup sp with
      | none => exact mkErr_shape _ _ (by decide)
      | some ent =>
          cases ent with
          | dir => exact mkErr_shape _ _ (by decide)
          | file t n =>
              cases t with
              | none => exact mkErr_shape _ _ (by decide)
              | some s => exact success_shape _ rfl

/-- Every result of the direct write operation satisfies the shape invariant. -/
theorem writeFileDirect_shape (fs : FS) (base : List Comp) (p : PyPath) (c : String) :
    resultShapeOk (writeFileDirect fs base p c).1 := by
  unfold writeFileDirect
  cases hsp : safePath base p with
  | error e => exact mkErr_shape _ _ (by decide)
  | ok sp =>
      dsimp only
      cases hmk : mkdirs fs sp.dropLast with
      | error e => exact mkErr_shape _ _ (by decide)
      | ok fs1 =>
          dsimp only
          cases hl : fs1.lookup sp with
          | none => exact success_shape _ rfl
          | some ent =>
              cases ent with
              | dir => exact mkErr_shape _ _ (by decide)
              | file t n => exact success_shape _ rfl

/-- Every result of the direct list operation satisfies the shape invariant. -/
theorem listDirectoryDirect_shape (fs : FS) (base : List Comp) (p : PyPath) :
    resultShapeOk (listDirectoryDirect fs base p) := by
  unfold listDirectoryDirect
  cases hsp : safePath base p with
  | error e => exact mkErr_shape _ _ (by decide)
  | ok sp =>
      dsimp only
      cases hl : fs.lookup sp with
      | none => exact mkErr_shape _ _ (by decide)
      | some ent =>
          cases ent with
          | dir => exact success_shape _ rfl
          | file t n => exact mkErr_shape _ _ (by decide)

/-- Every result of the direct search operation satisfies the shape invariant. -/
theorem searchFilesDirect_shape (fs : FS) (base : List Comp) (term : String)
    (p : PyPath) (ext : String) : resultShapeOk (searchFilesDirect fs base term p ext) := by
  unfold searchFilesDirect
  cases hsp : safePath base p with
  | error e => exact mkErr_shape _ _ (by decide)
  | ok sp =>
      dsimp only
      cases hl : fs.lookup sp with
      | none => exact mkErr_shape _ _ (by decide)
      | some ent =>
          cases ent with
          | dir => exact success_shape _ rfl
          | file t n => exact mkErr_shape _ _ (by decide)

/-- Every result of the direct info operation satisfies the shape invariant. -/
theorem fileInfoDirect_shape (fs : FS) (base : List Comp) (p : PyPath) :
    resultShapeOk (fileInfoDirect fs base p) := by
  unfold fileInfoDirect
  cases hsp : safePath base p with
  | error e => exact mkErr_shape _ _ (by decide)
  | ok sp =>
      dsimp only
      cases hl : fs.lookup sp with
      | none => exact mkErr_shape _ _ (by decide)
      | some ent => exact success_shape _ rfl

/-- Every result produced by the try-block body of the Windows dispatcher
satisfies the shape invariant. -/
theorem windowsExecuteBody_shape (fs : FS) (base : List Comp) (name : String)
    (args : ArgMap) (pr : PyResult × FS)
    (h : windowsExecuteBody fs base name args = .ok pr) : resultShapeOk pr.1 := by
  unfold windowsExecuteBody at h
  cases hfp : argGet args ("file_path") <;>
  cases hct : argGet args ("content") <;>
  cases hst : argGet args ("search_term") <;>
  cases hpt : argGet args ("path") <;>
  simp only [hfp, hct, hst, hpt, exceptBind_ok, exceptBind_error] at h <;>
  repeat' split at h
  all_goals
    first
      | (cases h; first
          | exact readFileDirect_shape _ _ _
          | exact writeFileDirect_shape _ _ _ _
          | exact listDirectoryDirect_shape _ _ _
          | exact searchFilesDirect_shape _ _ _ _ _
          | exact fileInfoDirect_shape _ _ _
          | exact mkErr_shape _ _ (by decide))
      | cases h

/-- Every result of the Windows dispatcher satisfies the shape invariant. -/
theorem windowsExecuteMcpTool_shape (fs : FS) (base : List Comp) (name : String)
    (args : ArgMap) : resultShapeOk (windowsExecuteMcpTool fs base name args).1 := by
  unfold windowsExecuteMcpTool
  cases hb : windowsExecuteBody fs base name args with
  | error e => exact mkErr_shape _ _ (strAppend_ne_empty _ _ (strAppend_ne_empty _ _ (by decide)))
  | ok pr => exact windowsExecuteBody_shape fs base name args pr hb

/-- Every result of the asyncio client dispatcher satisfies the shape
invariant. -/
theorem mcpClientExecuteTool_shape (st : MCPClientState) (name : String)
    (remote : Except PyErr RemoteCallResult) :
    resultShapeOk (mcpClientExecuteTool st name remote) := by
  unfold mcpClientExecuteTool
  split
  · exact mkErr_shape _ _ (by decide)
  · split
    · exact mkErr_shape_lit _ (by decide)
    · cases remote with
      | error e =>
          exact mkErr_shape _ _ (strAppend_ne_empty _ _ (strAppend_ne_empty _ _ (by decide)))
      | ok r => exact success_shape _ rfl

/-- The formatted matching lines of the source are the rendering of the
spec-side numbered pairs. -/
theorem matchingLines_eq_map (term content : String) :
    (content.splitOn ("\n")).enum.filterMap (fun p =>
      if strContainsB (pyLower p.2) (pyLower term) then
        some ("  Line " ++ toString (p.1 + 1) ++ ": " ++ p.2.trim)
      else none)
    = (matchingPairs term content).map (fun q => "  Line " ++ toString q.1 ++ ": " ++ q.2) := by
  rw [matchingPairs, List.map_filterMap]
  congr 1
  funext p
  split <;> rfl

/-- One file's block of output lines equals the rendering of its spec-side
verdict. -/
theorem perFileLines_eq_renderHit (term ext : String) (root : List Comp)
    (f : List Comp × Option String) :
    perFileLines term ext root f =
      (match specFileHit term ext root f with
       | none => []
       | some h => renderHit h) := by
  unfold perFileLines specFileHit
  split
  · rfl
  · cases f.2 with
    | none => rfl
    | some stored =>
        simp only
        unfold fileBlock renderHit
        split
        · rw [matchingLines_eq_map]
          simp only [List.length_map, ← List.map_take, Nat.sub_ne_zero_iff_lt]
        · rfl

/-- The walked match list is the rendering of the spec-side hits, file by
file. -/
theorem flatten_perFile_eq_renderHits (term ext : String) (root : List Comp)
    (l : List (List Comp × Option String)) :
    (l.map (perFileLines term ext root)).flatten =
      ((l.filterMap (specFileHit term ext root)).map renderHit).flatten := by
  induction l with
  | nil => rfl
  | cons f rest ih =>
      simp only [List.map_cons, List.flatten_cons, List.filterMap_cons]
      rw [perFileLines_eq_renderHit term ext root f]
      cases h : specFileHit term ext root f with
      | none => simpa using ih
      | some hit => simp only [List.map_cons, List.flatten_cons, ih]

/-! ## Claim theorems -/

/-- C1. For every path whose canonical resolution against the base directory
escapes the base directory, each of the five file operations returns the
permission-denied failure dictionary and performs no filesystem access or
mutation: the write operation returns the filesystem unchanged, and every
result is the same for all filesystems (the statement is universally
quantified over `fs`), so no entry is read before the failure. -/
theorem sandboxEscape_denied_before_io (fs : FS) (base : List Comp) (p : PyPath)
    (content term ext : String)
    (h : base.isPrefixOf (resolvePath base p) = false) :
    readFileDirect fs base p =
      mkErr ("Error reading file: Access denied: Path outside base directory")
    ∧ writeFileDirect fs base p content =
      (mkErr ("Error writing file: Access denied: Path outside base directory"), fs)
    ∧ listDirectoryDirect fs base p =
      mkErr ("Error listing directory: Access denied: Path outside base directory")
    ∧ searchFilesDirect fs base term p ext =
      mkErr ("Error searching files: Access denied: Path outside base directory")
    ∧ fileInfoDirect fs base p =
      mkErr ("Error getting file info: Access denied: Path outside base directory") := by
  refine ⟨?_, ?_, ?_, ?_, ?_⟩ <;>
    simp [readFileDirect, writeFileDirect, listDirectoryDirect, searchFilesDirect,
      fileInfoDirect, safePath, h, PyErr.str]

/-- C1 witness: reading, writing, listing, searching and inspecting
`../outside.txt` against the base directory `/sandbox` is denied on a
concrete filesystem, and the write leaves the filesystem untouched. -/
theorem sandboxEscape_denied_before_io_witness :
    readFileDirect ⟨[(["sandbox"], Entry.dir)]⟩ ["sandbox"] ⟨false, ["..", "outside.txt"]⟩ =
      mkErr ("Error reading file: Access denied: Path outside base directory")
    ∧ writeFileDirect ⟨[(["sandbox"], Entry.dir)]⟩ ["sandbox"] ⟨false, ["..", "outside.txt"]⟩ "x" =
      (mkErr ("Error writing file: Access denied: Path outside base directory"),
       ⟨[(["sandbox"], Entry.dir)]⟩)
    ∧ listDirectoryDirect ⟨[(["sandbox"], Entry.dir)]⟩ ["sandbox"] ⟨false, ["..", "outside.txt"]⟩ =
      mkErr ("Error listing directory: Access denied: Path outside base directory")
    ∧ searchFilesDirect ⟨[(["sandbox"], Entry.dir)]⟩ ["sandbox"] "x"
        ⟨false, ["..", "outside.txt"]⟩ "" =
      mkErr ("Error searching files: Access denied: Path outside base directory")
    ∧ fileInfoDirect ⟨[(["sandbox"], Entry.dir)]⟩ ["sandbox"] ⟨false, ["..", "outside.txt"]⟩ =
      mkErr ("Error getting file info: Access denied: Path outside base directory") :=
  sandboxEscape_denied_before_io ⟨[(["sandbox"], Entry.dir)]⟩ ["sandbox"]
    ⟨false, ["..", "outside.txt"]⟩ "x" "x" "" (by decide)

/-- C2. Any exception raised inside the invocation-loop body — during the
first completion, argument parsing, tool dispatch, or the second completion —
is caught at the loop boundary, and the loop returns exactly the fixed
apology answer: no exception propagates (`chatWithTools` is total by
construction) and no raw error text reaches the answer. -/
theorem chat_error_yields_apology (mcpEnabled : Bool) (userMsg : String)
    (first : Except PyErr ChatResponse)
    (exec : String → ArgMap → Except PyErr PyResult)
    (second : List Message → Except PyErr String) (e : PyErr)
    (h : chatBody mcpEnabled userMsg first exec second = .error e) :
    (chatWithTools mcpEnabled userMsg first exec second).answer =
      "Sorry, I encountered an error."
    ∧ (chatWithTools mcpEnabled userMsg first exec second).errored = true := by
  simp [chatWithTools, h, apologyAnswer]

/-- C2 witness: a run whose first completion call raises returns the apology. -/
theorem chat_error_yields_apology_witness :
    (chatWithTools true ("hi") (.error (.runtimeError ("boom")))
        (fun _ _ => .ok (mkErr ("x"))) (fun _ => .ok ("y"))).answer =
      "Sorry, I encountered an error."
    ∧ (chatWithTools true ("hi") (.error (.runtimeError ("boom")))
        (fun _ _ => .ok (mkErr ("x"))) (fun _ => .ok ("y"))).errored = true :=
  chat_error_yields_apology true ("hi") (.error (.runtimeError ("boom")))
    (fun _ _ => .ok (mkErr ("x"))) (fun _ => .ok ("y")) (.runtimeError ("boom")) rfl

/-- C4. When the first completion response carries zero tool-call requests,
the loop dispatches no tool, issues no second completion call, and returns
the first response content as the final answer. -/
theorem chat_no_toolcalls_short_circuit (mcpEnabled : Bool) (userMsg content : String)
    (exec : String → ArgMap → Except PyErr PyResult)
    (second : List Message → Except PyErr String) :
    chatWithTools mcpEnabled userMsg (.ok { content := content, toolCalls := [] })
        exec second =
      { answer := content, dispatched := [], secondCalled := false, errored := false } := rfl

/-- C3 counterexample: the claim that tool dispatch never raises fails on the
local registry. `AgentTools.execute_tool` has no surrounding try/except, and
calling `search_web(**kwargs)` with an argument mapping containing an
unexpected key raises `TypeError` out of dispatch instead of returning a
failed result. -/
theorem dispatch_raises_counterexample :
    agentExecuteTool true ("search_web") [("bogus", "1")] (.ok [])
        (.ok { success := true }) =
      .error (.typeError ("search_web() got an unexpected keyword argument \x27bogus\x27")) :=
  rfl

/-- C3 amended: dispatch fails closed and is total except for Python keyword
binding on the local registry. (1) An unregistered name yields the
`Unknown tool` failure dictionary and no exception; (2) whenever the
submitted argument mapping binds to the handler signature, local dispatch
returns exactly one result and never raises; (3) the MCP dispatcher is total
by its catch-all handler, and an unknown operation yields the
`Unknown MCP operation` failure dictionary. -/
theorem dispatch_fails_closed_amended :
    (∀ (hasRag : Bool) (name : String) (kwargs : ArgMap)
        (rag : Except PyErr (List String)) (web : Except PyErr AgentDict),
      name ≠ "search_documents" → name ≠ "search_web" →
      agentExecuteTool hasRag name kwargs rag web =
        .ok { success := false, error := some ("Unknown tool: " ++ name) })
    ∧ (∀ (hasRag : Bool) (kwargs : ArgMap) (rag : Except PyErr (List String))
        (web : Except PyErr AgentDict),
      bindKwargs ("search_documents") ["query"] ["num_results"] kwargs = .ok () →
      ∃ d, agentExecuteTool hasRag ("search_documents") kwargs rag web = .ok d)
    ∧ (∀ (hasRag : Bool) (kwargs : ArgMap) (rag : Except PyErr (List String))
        (web : Except PyErr AgentDict),
      bindKwargs ("search_web") ["query"] ["max_results"] kwargs = .ok () →
      ∃ d, agentExecuteTool hasRag ("search_web") kwargs rag web = .ok d)
    ∧ (∀ (fs : FS) (base : List Comp) (name : String) (args : ArgMap),
      pyReplace name ("mcp_") "" ∉
        ["read_file", "write_file", "list_directory", "search_files", "file_info"] →
      windowsExecuteMcpTool fs base name args =
        (mkErr ("Unknown MCP operation: " ++ pyReplace name ("mcp_") ""), fs)) := by
  refine ⟨?_, ?_, ?_, ?_⟩
  · intro hasRag name kwargs rag web h1 h2
    simp [agentExecuteTool, h1, h2]
  · intro hasRag kwargs rag web h
    refine ⟨agentSearchDocuments hasRag (argGetD kwargs ("query") "") rag, ?_⟩
    rw [agentExecuteTool, if_pos rfl, h]; rfl
  · intro hasRag kwargs rag web h
    refine ⟨agentSearchWeb web, ?_⟩
    rw [agentExecuteTool, if_neg (by decide), if_pos rfl, h]; rfl
  · intro fs base name args h
    simp only [List.mem_cons, List.not_mem_nil, or_false, not_or] at h
    obtain ⟨h1, h2, h3, h4, h5⟩ := h
    simp [windowsExecuteMcpTool, windowsExecuteBody, h1, h2, h3, h4, h5]

/-- C3 amended witness: concrete instances — an unknown local tool and an
unknown MCP operation fail closed, and well-bound submissions to both local
handlers dispatch without raising. -/
theorem dispatch_fails_closed_amended_witness :
    (agentExecuteTool true ("fly_to_moon") [] (.ok []) (.ok { success := true }) =
      .ok { success := false, error := some ("Unknown tool: fly_to_moon") })
    ∧ (∃ d, agentExecuteTool true ("search_documents") [("query", "x")] (.ok [])
        (.ok { success := true }) = .ok d)
    ∧ (∃ d, agentExecuteTool true ("search_web") [("query", "x")] (.ok [])
        (.ok { success := true }) = .ok d)
    ∧ (windowsExecuteMcpTool ⟨[]⟩ ["sandbox"] "mcp_fly_to_moon" [] =
        (mkErr ("Unknown MCP operation: fly_to_moon"), ⟨[]⟩)) := by
  refine ⟨?_, ?_, ?_, ?_⟩
  · have h := dispatch_fails_closed_amended.1 true ("fly_to_moon") []
      (.ok []) (.ok { success := true }) (by decide) (by decide)
    rw [h]; rfl
  · exact dispatch_fails_closed_amended.2.1 true [("query", "x")] (.ok [])
      (.ok { success := true }) rfl
  · exact dispatch_fails_closed_amended.2.2.1 true [("query", "x")] (.ok [])
      (.ok { success := true }) rfl
  · have h := dispatch_fails_closed_amended.2.2.2 ⟨[]⟩ ["sandbox"] "mcp_fly_to_moon" []
      (by decide)
    rw [h]; rfl

set_option maxRecDepth 10000

/-- C5 counterexample: the system prompt is hardcoded, so it does not always
enumerate exactly the current catalog. With MCP enabled but the RAG source
unavailable, the prompt enumerates (and textually contains) the name
`search_documents` even though `get_available_tools` does not offer it. -/
theorem prompt_names_absent_tool_counterexample :
    "search_documents" ∈ promptToolNames true
    ∧ strContainsB (systemMessage true) ("search_documents") = true
    ∧ "search_documents" ∉ availableToolNames true false := by
  refine ⟨by decide, by decide, by decide⟩

/-- C5 amended: the hardcoded system prompt enumerates a fixed superset of
the catalog: every tool in the current catalog is named in the prompt, and
the prompt enumerates exactly the catalog precisely in the case where the
RAG source is available; each enumerated name indeed occurs in the literal
prompt text. -/
theorem prompt_superset_of_catalog_amended :
    (∀ (m r : Bool), ∀ n ∈ availableToolNames m r, n ∈ promptToolNames m)
    ∧ (∀ m : Bool, promptToolNames m = availableToolNames m true)
    ∧ (∀ m : Bool, ∀ n ∈ promptToolNames m, strContainsB (systemMessage m) n = true) := by
  refine ⟨by decide, by decide, by decide⟩

/-- C5 amended witness: a concrete catalog tool is named by the prompt. -/
theorem prompt_superset_of_catalog_amended_witness :
    "search_web" ∈ promptToolNames true
    ∧ strContainsB (systemMessage true) ("search_web") = true :=
  ⟨prompt_superset_of_catalog_amended.1 true false ("search_web") (by decide),
   prompt_superset_of_catalog_amended.2.2 true ("search_web") (by decide)⟩

/-- C6 counterexample: the write result reports the number of characters,
not the number of bytes written. Writing the five-character, six-UTF-8-byte
content of `h`, `é`, `l`, `l`, `o` stores six bytes but reports five. -/
theorem write_reports_characters_counterexample :
    (writeFileDirect ⟨[(["sandbox"], Entry.dir)]⟩ ["sandbox"]
        ⟨false, ["notes.txt"]⟩ "héllo").1.result =
      "Successfully wrote 5 characters to: notes.txt"
    ∧ (writeFileDirect ⟨[(["sandbox"], Entry.dir)]⟩ ["sandbox"]
        ⟨false, ["notes.txt"]⟩ "héllo").2.lookup ["sandbox", "notes.txt"] =
      some (Entry.file (some ("héllo")) 6)
    ∧ pyUtf8Len ("héllo") = 6
    ∧ "héllo".length = 5 := by
  refine ⟨by decide, by decide, by decide, by decide⟩

/-- C6 amended: for every sandboxed path whose parents create without
conflict and that is not an existing directory, the write succeeds and
reports the number of characters of the content — which coincides with the
number of bytes written exactly for ASCII content, so writing `hello`
reports 5. -/
theorem write_reports_character_count_amended (fs fs1 : FS) (base sp : List Comp)
    (p : PyPath) (c : String)
    (hsafe : safePath base p = .ok sp)
    (hmk : mkdirs fs sp.dropLast = .ok fs1)
    (hnd : fs1.lookup sp ≠ some Entry.dir) :
    writeFileDirect fs base p c =
      ({ success := true
         result := "Successfully wrote " ++ toString c.length ++ " characters to: " ++ pathRepr p
         toolNameKey := some ("mcp_write_file") },
       fs1.set sp (Entry.file (some c) (pyUtf8Len c)))
    ∧ (∀ s : String, (∀ ch ∈ s.data, ch.toNat < 128) → s.length = pyUtf8Len s) := by
  refine ⟨writeFileDirect_ok fs fs1 base sp p c hsafe hmk hnd, ?_⟩
  intro s hs
  cases s with
  | mk l =>
      show l.length = pyUtf8Len ⟨l⟩
      rw [pyUtf8Len]
      rw [foldl_utf8_ascii l 0 hs]
      omega

/-- C6 amended witness: writing `hello` (5 ASCII characters) to `notes.txt`
in the sandbox succeeds and reports 5, and for this content the character
count equals the byte count. -/
theorem write_reports_character_count_amended_witness :
    writeFileDirect ⟨[(["sandbox"], Entry.dir)]⟩ ["sandbox"]
        ⟨false, ["notes.txt"]⟩ "hello" =
      ({ success := true
         result := "Successfully wrote 5 characters to: notes.txt"
         toolNameKey := some ("mcp_write_file") },
       FS.set ⟨[(["sandbox"], Entry.dir)]⟩ ["sandbox", "notes.txt"]
         (Entry.file (some ("hello")) 5))
    ∧ "hello".length = pyUtf8Len ("hello") := by
  have h := write_reports_character_count_amended ⟨[(["sandbox"], Entry.dir)]⟩
    ⟨[(["sandbox"], Entry.dir)]⟩ ["sandbox"] ["sandbox", "notes.txt"]
    ⟨false, ["notes.txt"]⟩ "hello" rfl rfl (by decide)
  exact ⟨h.1.trans (by rfl), h.2 ("hello") (by decide)⟩

/-- C7 counterexample: the write/read round trip is not byte-for-byte for
every text content. Python text-mode reading normalises newlines, so writing
a content containing a lone carriage return reads back with it replaced by a
line feed. -/
theorem roundtrip_counterexample :
    readFileDirect
        (writeFileDirect ⟨[(["sandbox"], Entry.dir)]⟩ ["sandbox"]
          ⟨false, ["notes.txt"]⟩ "a\rb").2
        ["sandbox"] ⟨false, ["notes.txt"]⟩ =
      { success := true, result := "File: notes.txt\n---\na\nb",
        toolNameKey := some ("mcp_read_file") }
    ∧ ("a\nb" : String) ≠ "a\rb" := by
  refine ⟨by decide, by decide⟩

/-- C7 amended: writing a content without carriage returns to a sandboxed
path (whose parents create without conflict and which is not an existing
directory) and reading it back yields exactly that content as the content
portion of the read result; contents containing carriage returns are read
back with newlines normalised. -/
theorem roundtrip_no_cr_amended (fs fs1 : FS) (base sp : List Comp)
    (p : PyPath) (c : String)
    (hsafe : safePath base p = .ok sp)
    (hmk : mkdirs fs sp.dropLast = .ok fs1)
    (hnd : fs1.lookup sp ≠ some Entry.dir)
    (hcr : '\r' ∉ c.data) :
    readFileDirect (writeFileDirect fs base p c).2 base p =
      { success := true, result := "File: " ++ pathRepr p ++ "\n---\n" ++ c,
        toolNameKey := some ("mcp_read_file") } := by
  rw [writeFileDirect_ok fs fs1 base sp p c hsafe hmk hnd]
  unfold readFileDirect
  rw [hsafe]
  simp only [lookup_set_self]
  rw [normStr_eq_self c hcr]

/-- C7 amended witness: the round trip for `hello` at `notes.txt` returns
exactly `hello`. -/
theorem roundtrip_no_cr_amended_witness :
    readFileDirect
        (writeFileDirect ⟨[(["sandbox"], Entry.dir)]⟩ ["sandbox"]
          ⟨false, ["notes.txt"]⟩ "hello").2
        ["sandbox"] ⟨false, ["notes.txt"]⟩ =
      { success := true, result := "File: notes.txt\n---\nhello",
        toolNameKey := some ("mcp_read_file") } := by
  have h := roundtrip_no_cr_amended ⟨[(["sandbox"], Entry.dir)]⟩
    ⟨[(["sandbox"], Entry.dir)]⟩ ["sandbox"] ["sandbox", "notes.txt"]
    ⟨false, ["notes.txt"]⟩ "hello" rfl rfl (by decide) (by decide)
  exact h.trans (by rfl)

/-- C8. The search operation refines the spec-side search: the accumulated
match lines are exactly the rendering of the spec-side hits — one hit per
decodable, suffix-filtered file whose lowered content contains the lowered
term, recording the root-relative path, at most the first three matching
lines with their 1-based numbers, and the count of matching lines beyond
three — and on a valid sandboxed directory the operation always reports
success, so undecodable files are skipped silently rather than reported as
errors. -/
theorem search_refines_spec (fs : FS) (root : List Comp) (term ext : String) :
    searchMatchList fs root term ext =
      ((specSearchHits fs root term ext).map renderHit).flatten
    ∧ (∀ (base : List Comp) (dirPath : PyPath) (sp : List Comp),
        safePath base dirPath = .ok sp → fs.lookup sp = some Entry.dir →
        (searchFilesDirect fs base term dirPath ext).success = true) := by
  constructor
  · rw [searchMatchList, specSearchHits]
    exact flatten_perFile_eq_renderHits term ext root (filesUnder fs root)
  · intro base dirPath sp hsafe hdir
    unfold searchFilesDirect
    rw [hsafe]
    simp only [hdir]

/-- C8 witness: on a concrete sandbox holding one matching text file (with
four matching lines, so one shown count) and one undecodable file, the walk
equals the rendered spec hits and the operation succeeds. -/
theorem search_refines_spec_witness :
    searchMatchList
        ⟨[(["s"], Entry.dir),
          (["s", "a.txt"], Entry.file (some ("hello\nx\nHello\nwhy hello\nHELLO!")) 30),
          (["s", "bin.dat"], Entry.file none 4)]⟩
        ["s"] "hello" "" =
      ((specSearchHits
          ⟨[(["s"], Entry.dir),
            (["s", "a.txt"], Entry.file (some ("hello\nx\nHello\nwhy hello\nHELLO!")) 30),
            (["s", "bin.dat"], Entry.file none 4)]⟩
          ["s"] "hello" "").map renderHit).flatten
    ∧ (searchFilesDirect
        ⟨[(["s"], Entry.dir),
          (["s", "a.txt"], Entry.file (some ("hello\nx\nHello\nwhy hello\nHELLO!")) 30),
          (["s", "bin.dat"], Entry.file none 4)]⟩
        ["s"] "hello" ⟨false, ["."]⟩ "").success = true :=
  ⟨(search_refines_spec
      ⟨[(["s"], Entry.dir),
        (["s", "a.txt"], Entry.file (some ("hello\nx\nHello\nwhy hello\nHELLO!")) 30),
        (["s", "bin.dat"], Entry.file none 4)]⟩
      ["s"] "hello" "").1,
   (search_refines_spec
      ⟨[(["s"], Entry.dir),
        (["s", "a.txt"], Entry.file (some ("hello\nx\nHello\nwhy hello\nHELLO!")) 30),
        (["s", "bin.dat"], Entry.file none 4)]⟩
      ["s"] "hello" "").2 ["s"] ⟨false, ["."]⟩ ["s"] rfl rfl⟩

/-- C9 counterexample: disconnect is not idempotent on the asyncio wrapper.
After a successful connect, the first `cleanup` closes the event loop
without resetting the fields, so a second `cleanup` calls
`run_until_complete` on the closed loop and raises `RuntimeError` instead of
behaving as a no-op. -/
theorem double_cleanup_counterexample :
    (wrapperCleanup connectedWrapper >>= wrapperCleanup) =
      .error (.runtimeError ("Event loop is closed")) := rfl

/-- C9 amended: cleanup on a never-connected wrapper is a harmless no-op,
and the Windows wrapper's cleanup is always a no-op; but on the asyncio
wrapper only the first cleanup after a successful connect succeeds (closing
the loop), and a repeated cleanup raises. -/
theorem cleanup_never_connected_noop_amended :
    (∀ w : WrapState, w.mcpTools = none → w.loop = none → wrapperCleanup w = .ok w)
    ∧ wrapperCleanup connectedWrapper = .ok { mcpTools := some true, loop := some true }
    ∧ (∀ w : WrapState, windowsWrapperCleanup w = w) := by
  refine ⟨?_, rfl, fun _ => rfl⟩
  intro w h1 h2
  simp [wrapperCleanup, h1, h2, exceptBind_ok]

/-- C9 amended witness: cleaning up a freshly constructed wrapper is a
no-op for both implementations. -/
theorem cleanup_never_connected_noop_amended_witness :
    wrapperCleanup freshWrapper = .ok freshWrapper
    ∧ windowsWrapperCleanup freshWrapper = freshWrapper :=
  ⟨cleanup_never_connected_noop_amended.1 freshWrapper rfl rfl,
   cleanup_never_connected_noop_amended.2.2 freshWrapper⟩

/-- C10. Every value returned by the two MCP tool-execution entry points, on
every branch including the exception handlers, carries the boolean `success`
key and a `result` string (both are total fields of the embedded result
dictionary), and whenever `success` is false the dictionary carries a
non-empty `error` string together with an empty `result` string. -/
theorem execute_results_well_shaped :
    (∀ (fs : FS) (base : List Comp) (name : String) (args : ArgMap),
      resultShapeOk (windowsExecuteMcpTool fs base name args).1)
    ∧ (∀ (st : MCPClientState) (name : String) (remote : Except PyErr RemoteCallResult),
      resultShapeOk (mcpClientExecuteTool st name remote)) :=
  ⟨windowsExecuteMcpTool_shape, mcpClientExecuteTool_shape⟩

/-- C10 witness: the failure results for an unknown Windows operation and an
unregistered asyncio tool each carry a non-empty error and an empty result. -/
theorem execute_results_well_shaped_witness :
    ((∃ e, (windowsExecuteMcpTool ⟨[]⟩ ["s"] "mcp_zzz" []).1.error = some e ∧ e ≠ "")
      ∧ (windowsExecuteMcpTool ⟨[]⟩ ["s"] "mcp_zzz" []).1.result = "")
    ∧ ((∃ e, (mcpClientExecuteTool ⟨[], false⟩ "mcp_read_file" (.ok ⟨[]⟩)).error = some e ∧ e ≠ "")
      ∧ (mcpClientExecuteTool ⟨[], false⟩ "mcp_read_file" (.ok ⟨[]⟩)).result = "") :=
  ⟨execute_results_well_shaped.1 ⟨[]⟩ ["s"] "mcp_zzz" [] (by decide),
   execute_results_well_shaped.2 ⟨[], false⟩ "mcp_read_file" (.ok ⟨[]⟩) (by decide)⟩

end Week3
